import Mathlib

/-!
Verification of the token/session lifecycle core of the
fullstack-secure-rbac-auth-api repository, shallowly embedded in Lean.

The embedding follows the source files named by the claims:
  src/server/controller/authController.js  (register, verifyEmail, login,
      refresh, reSendVerificationEmail, forgotPassword, resetPassword)
  src/server/models/User.js                (schema, capitalizeName, setters,
      validators, pre-save password hashing, matchPassword)
  src/server/utils/jwt.js                  (token signing and verification)
  src/server/jobs/deleteUnverifiedUsers.js (the reaper sweep)

Modelling conventions:
  * Timestamps are Int milliseconds (JS Date.now()).
  * A signed JWT is modelled as its semantic content: the secret family it
    was signed with, its single payload claim (the email for tokens made by
    generateToken, the user id for access and refresh tokens) and its expiry.
    Two JWTs signed with the same secret, payload and expiry are the same
    string, which the model reflects as equality of SignedToken values.
  * bcrypt is modelled as a constructor wrapping the hashed text with its
    cost: bcrypt.compare succeeds exactly on the preimage of a single hash.
  * The store (MongoDB via mongoose) is a list of user documents. findOne
    returns the first match; Document.save writes the document back by id.
  * Email dispatch, HTTP plumbing and third-party input-shape validation
    (validator.isEmail) are external collaborators, out of scope per the
    spec; email sending is treated as non-failing and storeless.
-/

namespace AuthApi

/-- The three independent signing secrets of src/server/utils/jwt.js:
JWT_SECRET (generateToken and verifyToken), JWT_ACCESS_SECRET and
JWT_REFRESH_SECRET. A token verifies only against the secret it was signed
with. -/
inductive TokenFamily
  | main
  | access
  | refresh
deriving DecidableEq, Repr

/-- A signed JWT, by its semantic content: which secret signed it, its one
payload claim, and its expiry time in ms. -/
structure SignedToken where
  family : TokenFamily
  claim : String
  exp : Int
deriving DecidableEq, Repr

/-- Lifetime of generateToken(payload, "10m") as used by register. -/
def verificationLifeMs : Int := 10 * 60 * 1000

/-- Lifetime of access tokens (env JWT_ACCESS_EXPIRES_IN; 15 minutes). -/
def accessLifeMs : Int := 15 * 60 * 1000

/-- Lifetime of refresh tokens (env JWT_REFRESH_EXPIRES_IN; 7 days, matching
the refreshToken cookie maxAge in the controller). -/
def refreshLifeMs : Int := 7 * 24 * 60 * 60 * 1000

/-- jwt.sign(payload, JWT_SECRET, expiresIn) at time now. -/
def generateToken (claim : String) (lifeMs : Int) (now : Int) : SignedToken :=
  { family := .main, claim := claim, exp := now + lifeMs }

/-- jwt.verify(token, JWT_SECRET): some payload when the signature checks out
and the token is unexpired, none when verification throws. -/
def verifyToken (t : SignedToken) (now : Int) : Option String :=
  if t.family = .main ∧ now < t.exp then some t.claim else none

/-- jwt.sign({ id }, JWT_ACCESS_SECRET, ...) at time now. -/
def signAccessToken (id : String) (now : Int) : SignedToken :=
  { family := .access, claim := id, exp := now + accessLifeMs }

/-- jwt.sign({ id }, JWT_REFRESH_SECRET, ...) at time now. -/
def signRefreshToken (id : String) (now : Int) : SignedToken :=
  { family := .refresh, claim := id, exp := now + refreshLifeMs }

/-- jwt.verify(token, JWT_REFRESH_SECRET). -/
def verifyRefreshToken (t : SignedToken) (now : Int) : Option String :=
  if t.family = .refresh ∧ now < t.exp then some t.claim else none

/-- A stored password value. bcrypt.hash(p, cost) wraps its input; raw is a
value that was never hashed. The pre-save hook of User.js always stores
hashed (raw plaintext) 12. -/
inductive PwStored
  | raw (s : String)
  | hashed (p : PwStored) (cost : Nat)
deriving DecidableEq, Repr

/-- bcrypt.compare(entered, stored): true exactly when stored is a bcrypt
hash whose preimage is the entered plaintext (userSchema.methods.matchPassword
in User.js). -/
def matchPassword (entered : String) : PwStored → Bool
  | .hashed (.raw s) _ => entered == s
  | _ => false

/-- One document of the users collection (userSchema of User.js).
verificationTokenExpiresAt is declared in the schema but never written by any
operation of the repository. -/
structure UserDoc where
  id : String
  name : String
  email : String
  password : PwStored
  role : String
  isVerified : Bool
  lastLogin : Int
  createdAt : Int
  refreshToken : Option SignedToken
  verificationToken : Option SignedToken
  verificationTokenExpiresAt : Option Int
  resetPasswordToken : Option String
  resetPasswordExpiresAt : Option Int
deriving DecidableEq, Repr

/-- The users collection. -/
abbrev Store := List UserDoc

/-- User.findOne({ email }). -/
def findOneByEmail (store : Store) (email : String) : Option UserDoc :=
  store.find? (fun u => u.email == email)

/-- User.findById(id). -/
def findById (store : Store) (id : String) : Option UserDoc :=
  store.find? (fun u => u.id == id)

/-- document.save(): write the document back over the record with its id. -/
def saveUser (store : Store) (w : UserDoc) : Store :=
  store.map (fun v => if v.id = w.id then w else v)

/-- JS String.split on a single space character, over the character list:
empty input gives one empty piece, adjacent separators give empty pieces. -/
def splitOnSpaceChars (cs : List Char) : List (List Char) :=
  cs.foldr
    (fun c acc =>
      if c = ' ' then [] :: acc
      else
        match acc with
        | [] => [[c]]
        | w :: ws => (c :: w) :: ws)
    [[]]

/-- One word of capitalizeName: charAt 0 uppercased, the rest lowercased. -/
def capitalizeWord (w : List Char) : List Char :=
  match w with
  | [] => []
  | c :: rest => c.toUpper :: rest.map Char.toLower

/-- capitalizeName of User.js: split on a single space, uppercase the first
character of each piece and lowercase the rest, join with spaces. -/
def capitalizeName (name : String) : String :=
  { data := List.intercalate [' '] ((splitOnSpaceChars name.data).map capitalizeWord) }

/-- JS String.trim: drop whitespace from both ends. -/
def trimChars (cs : List Char) : List Char :=
  ((cs.dropWhile Char.isWhitespace).reverse.dropWhile Char.isWhitespace).reverse

/-- The stored value of the name path. Mongoose applies setters most recently
added first; the schema options add the trim setter before the custom set
option, so the custom capitalizeName runs first and trim runs on its
result. -/
def nameSetter (name : String) : String :=
  { data := trimChars (capitalizeName name).data }

/-- validator.isAlpha (default en-US locale): one or more ASCII letters. -/
def isAlphaStr (s : String) : Bool :=
  s.length != 0 && s.data.all Char.isAlpha

/-- The name path validators of userSchema: minlength 3, maxlength 5 * 10,
and validator.isAlpha over the whole stored string. They run on the value
the setters produced. -/
def validName (s : String) : Bool :=
  decide (3 ≤ s.length) && decide (s.length ≤ 50) && isAlphaStr s

/-- A JSON value as the API responses carry one. A SignedToken serialises to
its compact JWT string, injectively, so it is kept as its own constructor. -/
inductive JVal
  | str (s : String)
  | num (n : Int)
  | jbool (b : Bool)
  | tok (t : SignedToken)
deriving DecidableEq, Repr

/-- A JSON object body, as ordered key-value pairs. -/
abbrev JBody := List (String × JVal)

/-- Whether a body has a field with the given key. -/
def hasKey (b : JBody) (k : String) : Bool :=
  b.any (fun kv => kv.1 == k)

/-- A field present only when the value is set (JSON.stringify drops
undefined values). -/
def optField (k : String) (v : Option JVal) : JBody :=
  match v with
  | none => []
  | some x => [(k, x)]

/-- The serialisation of spreading user._doc into a response with the
password key overridden to undefined, as register and login do with
spread user._doc and password undefined: every stored field appears except
the password (dropped by JSON.stringify) and refreshToken (select false, not
part of _doc unless explicitly selected; the one response built from a
document with refreshToken selected is never reached, see login). -/
def userDocJson (u : UserDoc) : JBody :=
  [("_id", .str u.id), ("name", .str u.name), ("email", .str u.email),
   ("role", .str u.role), ("isVerified", .jbool u.isVerified),
   ("lastLogin", .num u.lastLogin), ("createdAt", .num u.createdAt)]
  ++ optField "verificationToken" (u.verificationToken.map .tok)
  ++ optField "verificationTokenExpiresAt" (u.verificationTokenExpiresAt.map .num)
  ++ optField "resetPasswordToken" (u.resetPasswordToken.map .str)
  ++ optField "resetPasswordExpiresAt" (u.resetPasswordExpiresAt.map .num)

/-- The outcome of exports.register: 400 Email already in use, 201 with the
created user object, or 500 Registration failed (the catch branch, reached
when User.create rejects a validation error). -/
inductive RegisterResult
  | emailInUse
  | created (userBody : JBody)
  | failed
deriving DecidableEq, Repr

/-- The document User.create builds in register: name through the schema
setters, password hashed by the pre-save hook at cost 12, defaults for role,
isVerified, lastLogin and createdAt, and the freshly issued verification
token stored on the record. newId stands for the generated ObjectId. -/
def mkNewUser (name email password : String) (now : Int) (newId : String) : UserDoc :=
  { id := newId
    name := nameSetter name
    email := email
    password := .hashed (.raw password) 12
    role := "user"
    isVerified := false
    lastLogin := now
    createdAt := now
    refreshToken := none
    verificationToken := some (generateToken email verificationLifeMs now)
    verificationTokenExpiresAt := none
    resetPasswordToken := none
    resetPasswordExpiresAt := none }

/-- exports.register of authController.js. Validation by the schema: the
name validators over the setter output and the password minlength 6; the
email format check (validator.isEmail, a third-party collaborator) is an
input-shape precondition outside the core per the spec and is not modelled.
A validation rejection from User.create lands in the catch, 500. -/
def register (store : Store) (name email password : String) (now : Int)
    (newId : String) : RegisterResult × Store :=
  match findOneByEmail store email with
  | some _ => (.emailInUse, store)
  | none =>
    if validName (nameSetter name) && decide (6 ≤ password.length) then
      let u := mkNewUser name email password now newId
      (.created (userDocJson u), store ++ [u])
    else
      (.failed, store)

/-- The outcome of exports.login. The 403 response conflates a missing
account with an unverified one. For a found verified account the handler
calls user.comparePassword, a method the User model does not define (it
defines matchPassword), so the handler throws a TypeError before any
password comparison, token issuance or response: there is no catch in
login, hence no further constructor is reachable. -/
inductive LoginResult
  | invalidOrUnverified
  | thrown (msg : String)
deriving DecidableEq, Repr

/-- exports.login of authController.js lines 70 to 102. -/
def login (store : Store) (email _password : String) : LoginResult × Store :=
  match findOneByEmail store email with
  | none => (.invalidOrUnverified, store)
  | some u =>
    if u.isVerified then
      (.thrown "user.comparePassword is not a function", store)
    else
      (.invalidOrUnverified, store)

/-- The outcome of exports.verifyEmail: 400 Invalid or already verified,
200 success, or 400 Invalid or expired token from the catch around
verifyToken. -/
inductive VerifyResult
  | invalidOrVerified
  | success
  | invalidOrExpired
deriving DecidableEq, Repr

/-- exports.verifyEmail of authController.js lines 51 to 68. The token
query parameter may be absent (verifyToken then throws). The presented
token is compared only by signature and expiry; the stored
verificationToken is never consulted. -/
def verifyEmail (store : Store) (token : Option SignedToken) (now : Int) :
    VerifyResult × Store :=
  match token with
  | none => (.invalidOrExpired, store)
  | some t =>
    match verifyToken t now with
    | none => (.invalidOrExpired, store)
    | some email =>
      match findOneByEmail store email with
      | none => (.invalidOrVerified, store)
      | some u =>
        if u.isVerified then
          (.invalidOrVerified, store)
        else
          (.success, saveUser store { u with isVerified := true, verificationToken := none })

/-- The outcome of exports.refresh: 401 Missing refresh token, 403 Invalid
refresh token, 403 Invalid or expired token (the catch around
verifyRefreshToken), or 200 with the new access token in the body and the
new refresh token delivered through the cookie channel. -/
inductive RefreshResult
  | missing
  | invalid
  | invalidOrExpired
  | ok (accessToken : SignedToken) (cookie : SignedToken)
deriving DecidableEq, Repr

/-- The part of exports.refresh after the store read: the check against the
snapshot read earlier (no user, or stored refreshToken differing from the
presented token, gives 403 Invalid refresh token) and on success the blind
write of the rotated token through document.save, which updates by id
without comparing the current stored value. The store argument is the store
at write time; the snapshot is the document as it was read. -/
def refreshStep2 (store : Store) (snapshot : Option UserDoc) (t : SignedToken)
    (id : String) (now : Int) : RefreshResult × Store :=
  match snapshot with
  | none => (.invalid, store)
  | some u =>
    if u.refreshToken = some t then
      let newRefresh := signRefreshToken id now
      (.ok (signAccessToken id now) newRefresh,
        saveUser store { u with refreshToken := some newRefresh })
    else
      (.invalid, store)

/-- exports.refresh of authController.js lines 104 to 133, run sequentially:
cookie check, token verification, the findById read, then the check and
write of refreshStep2 against the same store. -/
def refresh (store : Store) (cookie : Option SignedToken) (now : Int) :
    RefreshResult × Store :=
  match cookie with
  | none => (.missing, store)
  | some t =>
    match verifyRefreshToken t now with
    | none => (.invalidOrExpired, store)
    | some id => refreshStep2 store (findById store id) t id now

/-- Two exports.refresh calls presenting the same cookie token, interleaved
so that both findById reads happen before either save: call A reads, call B
reads, call A checks and writes, call B checks and writes against the store
call A left. Each call still verifies the token at its own time. This is
one admissible schedule of two concurrent handler invocations; nothing in
the handler or the store serialises the read of one against the write of
the other. -/
def refreshConcRRWW (store : Store) (t : SignedToken) (nowA nowB : Int) :
    RefreshResult × RefreshResult × Store :=
  match verifyRefreshToken t nowA, verifyRefreshToken t nowB with
  | some idA, some idB =>
    let snapA := findById store idA
    let snapB := findById store idB
    let stepA := refreshStep2 store snapA t idA nowA
    let stepB := refreshStep2 stepA.2 snapB t idB nowB
    (stepA.1, stepB.1, stepB.2)
  | some idA, none =>
    let stepA := refreshStep2 store (findById store idA) t idA nowA
    (stepA.1, .invalidOrExpired, stepA.2)
  | none, some idB =>
    let stepB := refreshStep2 store (findById store idB) t idB nowB
    (.invalidOrExpired, stepB.1, stepB.2)
  | none, none => (.invalidOrExpired, .invalidOrExpired, store)

/-- The outcome of exports.reSendVerificationEmail: 400 Email required,
404 User not found, 400 Email already verified, or 200 resent. -/
inductive ResendResult
  | emailRequired
  | notFound
  | alreadyVerified
  | sent
deriving DecidableEq, Repr

/-- exports.reSendVerificationEmail of authController.js lines 163 to 180.
It calls the sendVerificationEmail of utils/emails.js, which only renders
and sends mail for the user it is given (with an undefined link, since the
controller passes no second argument): no token is generated, nothing is
written to the store in any branch. The token-regenerating helper of
utils/sendVerificationEmail.js exists in the repository but is not the
function this controller imports. -/
def reSendVerificationEmail (store : Store) (email : Option String) :
    ResendResult × Store :=
  match email with
  | none => (.emailRequired, store)
  | some e =>
    if e = "" then (.emailRequired, store)
    else
      match findOneByEmail store e with
      | none => (.notFound, store)
      | some u =>
        if u.isVerified then (.alreadyVerified, store)
        else (.sent, store)

/-- One hex digit, lowercase, as Buffer.toString base 16 renders it. -/
def hexDigitChar (n : Nat) : Char :=
  Char.ofNat (if n < 10 then 48 + n else 87 + n)

/-- The two hex digits of one byte. -/
def byteToHexChars (b : Fin 256) : List Char :=
  [hexDigitChar (b.val / 16), hexDigitChar (b.val % 16)]

/-- crypto.randomBytes(n).toString of the hex encoding: the runtime draws
the bytes; the model takes them as input. -/
def bytesToHex (bs : List (Fin 256)) : String :=
  { data := bs.flatMap byteToHexChars }

/-- A lowercase hex character. -/
def isHexChar (c : Char) : Bool :=
  c.isDigit || (decide (97 ≤ c.toNat) && decide (c.toNat ≤ 102))

/-- The outcome of exports.forgotPassword: 400 User not found, or 200 with
the reset link mailed out. -/
inductive ForgotResult
  | notFound
  | sent
deriving DecidableEq, Repr

/-- The two reset-field assignments of forgotPassword, as one document
update. -/
def withResetToken (u : UserDoc) (token : String) (expiresAt : Int) : UserDoc :=
  { u with resetPasswordToken := some token, resetPasswordExpiresAt := some expiresAt }

/-- exports.forgotPassword of authController.js lines 182 to 203: a random
20-byte hex token and an expiry of now plus 60 minutes overwrite the reset
fields of the found account unconditionally, then the reset link is
mailed. -/
def forgotPassword (store : Store) (email : String) (now : Int)
    (rnd : List (Fin 256)) : ForgotResult × Store :=
  match findOneByEmail store email with
  | none => (.notFound, store)
  | some u =>
    (.sent, saveUser store (withResetToken u (bytesToHex rnd) (now + 60 * 60 * 1000)))

/-- The reset-token lookup predicate of exports.resetPassword: exact match
on resetPasswordToken together with resetPasswordExpiresAt strictly greater
than now. -/
def resetTokenValid (u : UserDoc) (token : String) (now : Int) : Bool :=
  u.resetPasswordToken == some token
    && (match u.resetPasswordExpiresAt with
        | some e => decide (now < e)
        | none => false)

/-- User.findOne of the reset-token query. -/
def findByResetToken (store : Store) (token : String) (now : Int) : Option UserDoc :=
  store.find? (fun u => resetTokenValid u token now)

/-- The outcome of exports.resetPassword: 400 Invalid or expired reset
token, 400 with the thrown error message, or 200 success. -/
inductive ResetResult
  | invalidOrExpired
  | errMessage (msg : String)
  | success
deriving DecidableEq, Repr

/-- exports.resetPassword of authController.js lines 205 to 231. After the
lookup succeeds the handler evaluates bcrypt.hash, but bcrypt is not in
scope in this module (it is required only inside models/User.js), so a
ReferenceError is thrown before any assignment to the document; the catch
answers 400 with the error message. The success constructor of ResetResult
corresponds to the remaining lines 220 to 227, which are unreachable. -/
def resetPassword (store : Store) (token _password : String) (now : Int) :
    ResetResult × Store :=
  match findByResetToken store token now with
  | none => (.invalidOrExpired, store)
  | some _ => (.errMessage "bcrypt is not defined", store)

/-- The grace period of jobs/deleteUnverifiedUsers.js: accounts are eligible
once created more than 30 minutes ago. -/
def gracePeriodMs : Int := 30 * 60 * 1000

/-- The delete predicate of the sweep: isVerified false and createdAt
strictly before now minus the grace period. -/
def reaperDeletes (now : Int) (u : UserDoc) : Bool :=
  !u.isVerified && decide (u.createdAt < now - gracePeriodMs)

/-- One sweep of jobs/deleteUnverifiedUsers.js: a single
User.deleteMany({ isVerified false, createdAt before the cutoff }), giving
the surviving store and the deletedCount. -/
def deleteUnverifiedUsersSweep (store : Store) (now : Int) : Store × Nat :=
  (store.filter (fun u => !reaperDeletes now u), store.countP (reaperDeletes now))

/-- A valid verification token for the sample account, as register would
have issued it. -/
def sampleVerifyTok : SignedToken :=
  { family := .main, claim := "alice@x.com", exp := 600000 }

/-- A second validly signed verification token for the same email with a
different expiry: a different JWT string from the stored one. -/
def sampleOtherTok : SignedToken :=
  { family := .main, claim := "alice@x.com", exp := 700000 }

/-- A refresh token for the sample account. -/
def sampleRefreshTok : SignedToken :=
  { family := .refresh, claim := "u1", exp := 1000000 }

/-- A sample unverified account with a stored verification token and a
pending reset token. -/
def sampleAlice : UserDoc :=
  { id := "u1"
    name := "Alice"
    email := "alice@x.com"
    password := .hashed (.raw "OldPass1") 12
    role := "user"
    isVerified := false
    lastLogin := 0
    createdAt := 0
    refreshToken := none
    verificationToken := some sampleVerifyTok
    verificationTokenExpiresAt := none
    resetPasswordToken := some "oldtok"
    resetPasswordExpiresAt := some 99999 }

/-- The sample account once verified: isVerified true, verificationToken
cleared. -/
def verifiedAlice : UserDoc :=
  { sampleAlice with isVerified := true, verificationToken := none }

/-- The sample account verified and logged in, holding the refresh token
the store currently honours. -/
def sampleVerified : UserDoc :=
  { verifiedAlice with refreshToken := some sampleRefreshTok }

/-- A second unverified account, for the reaper. -/
def oldUnverified : UserDoc :=
  { sampleAlice with id := "u2", email := "bob@x.com" }

/-- Saving a document found by a predicate makes it the document that
predicate now finds, provided the saved document still satisfies the
predicate and keeps the id of the document it replaces. -/
theorem find?_saveUser (store : Store) (p : UserDoc → Bool) (u w : UserDoc)
    (hfind : store.find? p = some u) (hid : w.id = u.id) (hp : p w = true) :
    (saveUser store w).find? p = some w := by
  induction store with
  | nil => simp [List.find?] at hfind
  | cons v rest ih =>
    by_cases hv : p v = true
    · rw [List.find?_cons_of_pos _ hv] at hfind
      have huv : u = v := by
        injection hfind with h
        exact h.symm
      have hidvw : v.id = w.id := by rw [hid, huv]
      simp only [saveUser, List.map_cons, if_pos hidvw]
      exact List.find?_cons_of_pos _ hp
    · have hvfalse : p v = false := by
        cases hpv : p v with
        | false => rfl
        | true => exact absurd hpv hv
      rw [List.find?_cons_of_neg _ (by simp [hvfalse])] at hfind
      by_cases hidv : v.id = w.id
      · simp only [saveUser, List.map_cons, if_pos hidv]
        exact List.find?_cons_of_pos _ hp
      · simp only [saveUser, List.map_cons, if_neg hidv]
        rw [List.find?_cons_of_neg _ (by simp [hvfalse])]
        exact ih hfind

/-- The keys the document serialisation can carry: neither the password nor
the refresh token is ever among them. -/
theorem userDocJson_no_secret_keys (u : UserDoc) :
    hasKey (userDocJson u) "password" = false
    ∧ hasKey (userDocJson u) "refreshToken" = false := by
  unfold userDocJson hasKey optField
  cases u.verificationToken <;> cases u.verificationTokenExpiresAt <;>
    cases u.resetPasswordToken <;> cases u.resetPasswordExpiresAt <;> simp

/-- The hex rendering of a byte list has two characters per byte. -/
theorem bytesToHex_length (bs : List (Fin 256)) :
    (bytesToHex bs).length = 2 * bs.length := by
  induction bs with
  | nil => rfl
  | cons b rest ih =>
    simp only [bytesToHex, String.length, List.flatMap_cons, List.length_append,
      byteToHexChars, List.length_cons, List.length_nil] at *
    omega

/-- hexDigitChar of a value below 16 is a hex character. -/
theorem isHexChar_hexDigitChar : ∀ n : Fin 16, isHexChar (hexDigitChar n.val) = true := by
  decide

/-- Each byte renders to hex characters. -/
theorem byteToHexChars_hex (b : Fin 256) : (byteToHexChars b).all isHexChar = true := by
  have h1 : b.val / 16 < 16 := Nat.div_lt_of_lt_mul b.isLt
  have h2 : b.val % 16 < 16 := Nat.mod_lt _ (by omega)
  have e1 := isHexChar_hexDigitChar ⟨b.val / 16, h1⟩
  have e2 := isHexChar_hexDigitChar ⟨b.val % 16, h2⟩
  simp [byteToHexChars, e1, e2]

/-- The hex rendering consists of hex characters only. -/
theorem bytesToHex_all_hex (bs : List (Fin 256)) :
    (bytesToHex bs).data.all isHexChar = true := by
  induction bs with
  | nil => rfl
  | cons b rest ih =>
    simp only [bytesToHex, List.flatMap_cons, List.all_append] at *
    simp [byteToHexChars_hex b, ih]

/-- countP of the deleted together with the survivors accounts for the whole
store. -/
theorem countP_add_filter_not_length (l : List UserDoc) (p : UserDoc → Bool) :
    l.countP p + (l.filter (fun a => !p a)).length = l.length := by
  induction l with
  | nil => rfl
  | cons a rest ih =>
    cases ha : p a <;>
      simp [List.countP_cons, List.filter_cons, ha] <;> omega

/-- Claim C1: for an account whose stored refresh token is the validly
signed, unexpired token T, a first sequential Refresh(T) succeeds, issues a
new access and refresh pair and overwrites the stored token with the new
refresh token; a second Refresh presenting the same T then fails with the
invalid-token error and leaves the stored token unchanged. The freshness
hypothesis says the rotation happens at a time at which the newly signed
refresh token is a different JWT from T, which is what distinguishes the
two tokens in the store. -/
theorem refresh_rotation_second_use_rejected
    (store : Store) (u : UserDoc) (T : SignedToken) (now1 now2 : Int)
    (hfind : findById store T.claim = some u)
    (hstored : u.refreshToken = some T)
    (hfam : T.family = .refresh)
    (hnow1 : now1 < T.exp)
    (hfresh : T.exp ≠ now1 + refreshLifeMs)
    (hnow2 : now2 < T.exp) :
    refresh store (some T) now1 =
      (.ok (signAccessToken T.claim now1) (signRefreshToken T.claim now1),
        saveUser store { u with refreshToken := some (signRefreshToken T.claim now1) })
    ∧ findById
        (saveUser store { u with refreshToken := some (signRefreshToken T.claim now1) })
        T.claim
        = some { u with refreshToken := some (signRefreshToken T.claim now1) }
    ∧ refresh
        (saveUser store { u with refreshToken := some (signRefreshToken T.claim now1) })
        (some T) now2
        = (.invalid,
           saveUser store { u with refreshToken := some (signRefreshToken T.claim now1) }) := by
  have hid : (u.id == T.claim) = true := by
    have := List.find?_some hfind
    simpa using this
  have hverify1 : verifyRefreshToken T now1 = some T.claim := by
    simp [verifyRefreshToken, hfam, hnow1]
  have hverify2 : verifyRefreshToken T now2 = some T.claim := by
    simp [verifyRefreshToken, hfam, hnow2]
  have hfound2 : findById
      (saveUser store { u with refreshToken := some (signRefreshToken T.claim now1) })
      T.claim
      = some { u with refreshToken := some (signRefreshToken T.claim now1) } :=
    find?_saveUser store _ u _ hfind rfl (by simpa using hid)
  have hne : signRefreshToken T.claim now1 ≠ T := by
    intro he
    apply hfresh
    have := congrArg SignedToken.exp he
    simp [signRefreshToken] at this
    omega
  refine ⟨?_, hfound2, ?_⟩
  · simp [refresh, hverify1, hfind, refreshStep2, hstored]
  · simp [refresh, hverify2, hfound2, refreshStep2, hne]

/-- Witness for claim C1 at a concrete account: after the first rotation,
presenting the original token again is rejected and the store is left as
the rotation wrote it. -/
theorem refresh_rotation_second_use_rejected_witness :
    refresh
      (saveUser [sampleVerified]
        { sampleVerified with refreshToken := some (signRefreshToken sampleRefreshTok.claim 10) })
      (some sampleRefreshTok) 20
      = (.invalid,
         saveUser [sampleVerified]
           { sampleVerified with refreshToken := some (signRefreshToken sampleRefreshTok.claim 10) }) :=
  (refresh_rotation_second_use_rejected [sampleVerified] sampleVerified sampleRefreshTok 10 20
    rfl rfl rfl (by decide) (by decide) (by decide)).2.2

/-- Claim C2 as amended: the missing-account and unverified-account causes
are indistinguishable, both answered by the same 403 response before any
password information is consulted; but the password-mismatch cause is
distinguishable from them, because for a found verified account the
handler does not produce that response at all: it throws, since
user.comparePassword is not a method the User model defines. -/
theorem login_conflates_missing_and_unverified :
    (∀ (store : Store) (email pw : String),
      (∀ u : UserDoc, findOneByEmail store email = some u → u.isVerified = false) →
      login store email pw = (.invalidOrUnverified, store))
    ∧ (∀ (store : Store) (email pw : String) (u : UserDoc),
        findOneByEmail store email = some u → u.isVerified = true →
        (login store email pw).1 = .thrown "user.comparePassword is not a function") := by
  constructor
  · intro store email pw h
    unfold login
    cases hfind : findOneByEmail store email with
    | none => rfl
    | some u =>
      have := h u hfind
      simp [this]
  · intro store email pw u hfind hver
    unfold login
    rw [hfind]
    simp [hver]

/-- Witness for the amended claim C2 at concrete stores: the missing-account
run and the unverified-account run answer identically, and a verified
account with a wrong password does not reach a response. -/
theorem login_conflates_missing_and_unverified_witness :
    login ([] : Store) "alice@x.com" "guess1" = (.invalidOrUnverified, [])
    ∧ login [sampleAlice] "alice@x.com" "guess1" = (.invalidOrUnverified, [sampleAlice])
    ∧ (login [sampleVerified] "alice@x.com" "guess1").1
        = .thrown "user.comparePassword is not a function" :=
  ⟨login_conflates_missing_and_unverified.1 [] "alice@x.com" "guess1"
      (fun u h => by simp [findOneByEmail, List.find?] at h),
   login_conflates_missing_and_unverified.1 [sampleAlice] "alice@x.com" "guess1"
      (fun u h => by
        have : some sampleAlice = some u := h
        injection this with h2
        rw [← h2]
        rfl),
   login_conflates_missing_and_unverified.2 [sampleVerified] "alice@x.com" "guess1"
      sampleVerified rfl rfl⟩

/-- Counterexample to claim C2 as stated: two runs that differ only in
which pre-success failure cause holds do not produce identical responses.
The first run has no account under the email; in the second the account
exists, is verified, and the presented password does not match the stored
hash, yet the two observable outcomes differ. -/
theorem login_causes_distinguishable_cex :
    matchPassword "guess1" sampleVerified.password = false
    ∧ (login ([] : Store) "alice@x.com" "guess1").1
        ≠ (login [sampleVerified] "alice@x.com" "guess1").1 := by
  decide

/-- Claim C3, the divergence: resetPassword never succeeds for any store,
token, password and time, and never mutates the store; in particular, at an
account holding a valid unexpired reset token it answers the thrown
ReferenceError (bcrypt is not in scope in the controller), with the
password unchanged and the reset token still in place. -/
theorem resetPassword_never_succeeds :
    (∀ (store : Store) (token pw : String) (now : Int),
      (resetPassword store token pw now).1 ≠ .success
      ∧ (resetPassword store token pw now).2 = store)
    ∧ resetPassword [sampleAlice] "oldtok" "NewPass123!" 5
        = (.errMessage "bcrypt is not defined", [sampleAlice]) := by
  constructor
  · intro store token pw now
    unfold resetPassword
    cases findByResetToken store token now <;> simp
  · rfl

/-- Claim C4, the divergence: reSendVerificationEmail writes nothing to the
store in any branch, so no fresh verification token is issued and the
stored one is not overwritten; at a concrete unverified account it answers
success while leaving the stale stored token in place, and verifyEmail then
accepts a validly signed token that is not the stored one, because the
comparison is by signature and expiry only. -/
theorem resend_issues_no_token_and_verify_ignores_stored :
    (∀ (store : Store) (email : Option String),
      (reSendVerificationEmail store email).2 = store)
    ∧ reSendVerificationEmail [sampleAlice] (some "alice@x.com") = (.sent, [sampleAlice])
    ∧ sampleAlice.verificationToken ≠ some sampleOtherTok
    ∧ (verifyEmail [sampleAlice] (some sampleOtherTok) 5).1 = .success := by
  refine ⟨?_, rfl, by decide, rfl⟩
  intro store email
  unfold reSendVerificationEmail
  match email with
  | none => rfl
  | some e =>
    by_cases he : e = ""
    · simp [he]
    · simp only [if_neg he]
      cases findOneByEmail store e with
      | none => rfl
      | some u => cases hu : u.isVerified <;> simp [hu]

/-- Claim C5 as amended: the register response carries the created account
with the password and refresh-token fields absent but with the stored
verificationToken included; the refresh endpoint returns an access-family
token in the body and delivers the refresh-family token only through the
cookie channel; login as written never returns a user object. -/
theorem register_and_refresh_response_fields :
    (∀ (store : Store) (name email pw : String) (now : Int) (nid : String) (body : JBody),
      (register store name email pw now nid).1 = .created body →
      hasKey body "password" = false
      ∧ hasKey body "refreshToken" = false
      ∧ hasKey body "verificationToken" = true)
    ∧ (∀ (store : Store) (c : Option SignedToken) (now : Int) (a ck : SignedToken),
        (refresh store c now).1 = .ok a ck →
        a.family = .access ∧ ck.family = .refresh) := by
  constructor
  · intro store name email pw now nid body h
    unfold register at h
    cases hfind : findOneByEmail store email with
    | some v => rw [hfind] at h; simp at h
    | none =>
      rw [hfind] at h
      by_cases hval : (validName (nameSetter name) && decide (6 ≤ pw.length)) = true
      · rw [if_pos hval] at h
        simp only [RegisterResult.created.injEq] at h
        subst h
        refine ⟨(userDocJson_no_secret_keys _).1, (userDocJson_no_secret_keys _).2, ?_⟩
        simp [userDocJson, hasKey, optField, mkNewUser, List.any_append]
      · rw [if_neg hval] at h
        simp at h
  · intro store c now a ck h
    cases c with
    | none => simp [refresh] at h
    | some t =>
      cases hv : verifyRefreshToken t now with
      | none => simp [refresh, hv] at h
      | some id =>
        cases hf : findById store id with
        | none => simp [refresh, refreshStep2, hv, hf] at h
        | some u =>
          by_cases hm : u.refreshToken = some t
          · simp only [refresh, refreshStep2, hv, hf, if_pos hm,
              RefreshResult.ok.injEq] at h
            obtain ⟨ha, hc⟩ := h
            subst ha
            subst hc
            exact ⟨rfl, rfl⟩
          · simp [refresh, refreshStep2, hv, hf, hm] at h

/-- Witness for the amended claim C5 at a concrete registration: the
created body hides password and refreshToken and carries the
verification token. -/
theorem register_and_refresh_response_fields_witness :
    hasKey (userDocJson (mkNewUser "John" "john@x.com" "secret1" 0 "id1")) "password" = false
    ∧ hasKey (userDocJson (mkNewUser "John" "john@x.com" "secret1" 0 "id1")) "refreshToken" = false
    ∧ hasKey (userDocJson (mkNewUser "John" "john@x.com" "secret1" 0 "id1")) "verificationToken" = true :=
  register_and_refresh_response_fields.1 [] "John" "john@x.com" "secret1" 0 "id1"
    (userDocJson (mkNewUser "John" "john@x.com" "secret1" 0 "id1")) (by rfl)

/-- Counterexample to claim C5 as stated: the concrete register response
does contain a token field, namely the stored verification token, so the
created account is not returned without token fields. -/
theorem register_response_contains_token_cex :
    (match (register [] "John" "john@x.com" "secret1" 0 "id1").1 with
     | .created body => hasKey body "verificationToken"
     | _ => false) = true := by
  decide

/-- Claim C6: one reaper sweep, a single bulk delete by predicate, keeps
every verified account regardless of age, removes every unverified account
created before now minus the grace period, keeps every unverified account
at or after that cutoff, and its deletedCount together with the survivors
accounts for the whole store. -/
theorem reaper_deletes_exactly_expired_unverified
    (store : Store) (now : Int) (u : UserDoc) (hu : u ∈ store) :
    (u.isVerified = true → u ∈ (deleteUnverifiedUsersSweep store now).1)
    ∧ (u.isVerified = false → u.createdAt < now - gracePeriodMs →
        u ∉ (deleteUnverifiedUsersSweep store now).1)
    ∧ (u.isVerified = false → now - gracePeriodMs ≤ u.createdAt →
        u ∈ (deleteUnverifiedUsersSweep store now).1)
    ∧ (deleteUnverifiedUsersSweep store now).2
        + (deleteUnverifiedUsersSweep store now).1.length = store.length := by
  refine ⟨?_, ?_, ?_, ?_⟩
  · intro hv
    simp only [deleteUnverifiedUsersSweep, List.mem_filter]
    exact ⟨hu, by simp [reaperDeletes, hv]⟩
  · intro hv hold
    simp only [deleteUnverifiedUsersSweep, List.mem_filter]
    rintro ⟨-, hkeep⟩
    simp [reaperDeletes, hv, hold] at hkeep
  · intro hv hyoung
    simp only [deleteUnverifiedUsersSweep, List.mem_filter]
    refine ⟨hu, ?_⟩
    simp [reaperDeletes, hv]
    omega
  · exact countP_add_filter_not_length store (reaperDeletes now)

/-- Witness for claim C6 at a concrete store and time: the stale unverified
account does not survive the sweep. -/
theorem reaper_deletes_exactly_expired_unverified_witness :
    oldUnverified ∉ (deleteUnverifiedUsersSweep [oldUnverified] 4000000).1 :=
  (reaper_deletes_exactly_expired_unverified [oldUnverified] 4000000 oldUnverified
    (by simp)).2.1 rfl (by decide)

/-- Claim C7: when every account the presented token could resolve to is
already verified, verifyEmail answers one of the two invalid-token 400
errors (already verified, or invalid or expired from the catch) and the
store is left exactly as it was: no field of any record is mutated, the
already-verified check preceding any mutation. -/
theorem verifyEmail_on_verified_fails_cleanly
    (store : Store) (t : SignedToken) (now : Int)
    (h : ∀ (e : String) (u : UserDoc),
      verifyToken t now = some e → findOneByEmail store e = some u → u.isVerified = true) :
    ((verifyEmail store (some t) now).1 = .invalidOrVerified
      ∨ (verifyEmail store (some t) now).1 = .invalidOrExpired)
    ∧ (verifyEmail store (some t) now).2 = store := by
  cases hv : verifyToken t now with
  | none => simp [verifyEmail, hv]
  | some e =>
    cases hf : findOneByEmail store e with
    | none => simp [verifyEmail, hv, hf]
    | some u =>
      have hver := h e u hv hf
      simp [verifyEmail, hv, hf, hver]

/-- Witness for claim C7: a second VerifyEmail with the same, still valid,
token against the already-verified account fails cleanly and changes
nothing. -/
theorem verifyEmail_on_verified_fails_cleanly_witness :
    ((verifyEmail [verifiedAlice] (some sampleVerifyTok) 5).1 = .invalidOrVerified
      ∨ (verifyEmail [verifiedAlice] (some sampleVerifyTok) 5).1 = .invalidOrExpired)
    ∧ (verifyEmail [verifiedAlice] (some sampleVerifyTok) 5).2 = [verifiedAlice] :=
  verifyEmail_on_verified_fails_cleanly [verifiedAlice] sampleVerifyTok 5
    (fun e u he hu => by
      have he2 : some "alice@x.com" = some e := he
      injection he2 with he3
      rw [← he3] at hu
      have hu2 : some verifiedAlice = some u := hu
      injection hu2 with hu3
      rw [← hu3]
      rfl)

/-- Claim C8 as amended: two concurrent Refresh calls presenting the same
currently stored token are not serialised into exactly one success. The
activeRefreshToken update is a blind overwrite (findById followed by a save
keyed only on the id), so in the schedule where both reads precede both
writes each call passes the comparison against its own stale snapshot and
both succeed; the store ends holding the second writer's token, leaving the
refresh token issued to the first caller divergent from the stored one.
Exactly-one-success holds only for sequential, non-interleaved calls. -/
theorem refresh_concurrent_blind_overwrite
    (store : Store) (u : UserDoc) (T : SignedToken) (nowA nowB : Int)
    (hfind : findById store T.claim = some u)
    (hstored : u.refreshToken = some T)
    (hfam : T.family = .refresh)
    (hA : nowA < T.exp)
    (hB : nowB < T.exp) :
    (refreshConcRRWW store T nowA nowB).1
      = .ok (signAccessToken T.claim nowA) (signRefreshToken T.claim nowA)
    ∧ (refreshConcRRWW store T nowA nowB).2.1
      = .ok (signAccessToken T.claim nowB) (signRefreshToken T.claim nowB)
    ∧ findById (refreshConcRRWW store T nowA nowB).2.2 T.claim
      = some { u with refreshToken := some (signRefreshToken T.claim nowB) } := by
  have hid : (u.id == T.claim) = true := by
    have := List.find?_some hfind
    simpa using this
  have hvA : verifyRefreshToken T nowA = some T.claim := by
    simp [verifyRefreshToken, hfam, hA]
  have hvB : verifyRefreshToken T nowB = some T.claim := by
    simp [verifyRefreshToken, hfam, hB]
  have hsaveA : findById
      (saveUser store { u with refreshToken := some (signRefreshToken T.claim nowA) })
      T.claim
      = some { u with refreshToken := some (signRefreshToken T.claim nowA) } :=
    find?_saveUser store _ u _ hfind rfl (by simpa using hid)
  have hsaveB : findById
      (saveUser
        (saveUser store { u with refreshToken := some (signRefreshToken T.claim nowA) })
        { u with refreshToken := some (signRefreshToken T.claim nowB) })
      T.claim
      = some { u with refreshToken := some (signRefreshToken T.claim nowB) } :=
    find?_saveUser _ _ _ _ hsaveA rfl (by simpa using hid)
  refine ⟨?_, ?_, ?_⟩
  · simp [refreshConcRRWW, hvA, hvB, hfind, refreshStep2, hstored]
  · simp [refreshConcRRWW, hvA, hvB, hfind, refreshStep2, hstored]
  · simpa [refreshConcRRWW, hvA, hvB, hfind, refreshStep2, hstored] using hsaveB

/-- Witness for the amended claim C8 at a concrete account: after the
interleaved run the store holds the second writer's token, not the token
the first caller received. -/
theorem refresh_concurrent_blind_overwrite_witness :
    findById (refreshConcRRWW [sampleVerified] sampleRefreshTok 10 20).2.2
      sampleRefreshTok.claim
      = some { sampleVerified with
                refreshToken := some (signRefreshToken sampleRefreshTok.claim 20) } :=
  (refresh_concurrent_blind_overwrite [sampleVerified] sampleVerified sampleRefreshTok 10 20
    rfl rfl rfl (by decide) (by decide)).2.2

/-- Counterexample to claim C8 as stated: in the interleaved run over a
concrete account both Refresh calls presenting the same stored token
succeed, so it is not the case that exactly one succeeds and the other
fails. -/
theorem refresh_concurrent_both_succeed_cex :
    (refreshConcRRWW [sampleVerified] sampleRefreshTok 10 20).1
      = .ok (signAccessToken "u1" 10) (signRefreshToken "u1" 10)
    ∧ (refreshConcRRWW [sampleVerified] sampleRefreshTok 10 20).2.1
      = .ok (signAccessToken "u1" 20) (signRefreshToken "u1" 20) := by
  decide

/-- Claim C9: a successful ForgotPassword overwrites the reset fields of
the account unconditionally with the hex rendering of the 20 fresh random
bytes (40 lowercase hex characters) and an expiry exactly 60 minutes past
now; on the updated record exactly one token value passes the reset-token
lookup, so any earlier, different reset token stops matching the moment the
new one is stored. -/
theorem forgotPassword_overwrites_fresh_single_token
    (store : Store) (e : String) (now : Int) (rnd : List (Fin 256)) (u : UserDoc)
    (hfind : findOneByEmail store e = some u)
    (hlen : rnd.length = 20) :
    (forgotPassword store e now rnd).1 = .sent
    ∧ findOneByEmail (forgotPassword store e now rnd).2 e
        = some (withResetToken u (bytesToHex rnd) (now + 60 * 60 * 1000))
    ∧ (bytesToHex rnd).length = 40
    ∧ (bytesToHex rnd).data.all isHexChar = true
    ∧ (∀ (told : String) (now2 : Int), told ≠ bytesToHex rnd →
        resetTokenValid (withResetToken u (bytesToHex rnd) (now + 60 * 60 * 1000)) told now2
          = false)
    ∧ (∀ (t1 t2 : String) (n1 n2 : Int),
        resetTokenValid (withResetToken u (bytesToHex rnd) (now + 60 * 60 * 1000)) t1 n1 = true →
        resetTokenValid (withResetToken u (bytesToHex rnd) (now + 60 * 60 * 1000)) t2 n2 = true →
        t1 = t2) := by
  have hmail : (u.email == e) = true := by
    have := List.find?_some hfind
    simpa using this
  refine ⟨?_, ?_, ?_, bytesToHex_all_hex rnd, ?_, ?_⟩
  · simp [forgotPassword, hfind]
  · have : findOneByEmail
        (saveUser store (withResetToken u (bytesToHex rnd) (now + 60 * 60 * 1000))) e
        = some (withResetToken u (bytesToHex rnd) (now + 60 * 60 * 1000)) :=
      find?_saveUser store _ u _ hfind rfl (by simpa [withResetToken] using hmail)
    simpa [forgotPassword, hfind] using this
  · rw [bytesToHex_length, hlen]
  · intro told now2 hne
    simp [resetTokenValid, withResetToken]
    intro heq
    exact absurd heq.symm hne
  · intro t1 t2 n1 n2 h1 h2
    simp [resetTokenValid, withResetToken] at h1 h2
    rw [← h1.1, ← h2.1]

/-- Witness for claim C9 at a concrete account and concrete random bytes:
the reset fields are overwritten with the 40-character hex token and the
60-minute expiry. -/
theorem forgotPassword_overwrites_fresh_single_token_witness :
    findOneByEmail
      (forgotPassword [sampleAlice] "alice@x.com" 1000 (List.replicate 20 (171 : Fin 256))).2
      "alice@x.com"
      = some (withResetToken sampleAlice
          (bytesToHex (List.replicate 20 (171 : Fin 256))) (1000 + 60 * 60 * 1000)) :=
  (forgotPassword_overwrites_fresh_single_token [sampleAlice] "alice@x.com" 1000
    (List.replicate 20 (171 : Fin 256)) sampleAlice rfl (by decide)).2.1

/-- Claim C10: account creation normalizes and validates the display name:
the stored name is the submitted one with each space-separated piece
capitalized (first character uppercased, rest lowercased) and then trimmed;
registration succeeds exactly when that stored value passes the 3-to-50
length bounds and the alphabetic-only validator over the whole string; a
plausible display name with a space is therefore rejected, and the stored
name can differ from the submitted one. -/
theorem register_normalizes_and_validates_name :
    (∀ (store : Store) (name email pw : String) (now : Int) (nid : String),
      findOneByEmail store email = none → 6 ≤ pw.length →
      (validName (nameSetter name) = true →
        register store name email pw now nid
          = (.created (userDocJson (mkNewUser name email pw now nid)),
             store ++ [mkNewUser name email pw now nid]))
      ∧ (validName (nameSetter name) = false →
          register store name email pw now nid = (.failed, store)))
    ∧ (mkNewUser "jOHN" "j@x.com" "secret1" 0 "id1").name = "John"
    ∧ "John" ≠ "jOHN"
    ∧ (register [] "John Doe" "j@x.com" "secret1" 0 "id1").1 = .failed := by
  refine ⟨?_, by decide, by decide, by decide⟩
  intro store name email pw now nid hfree hpw
  constructor
  · intro hvalid
    have hcond : (validName (nameSetter name) && decide (6 ≤ pw.length)) = true := by
      simp [hvalid, hpw]
    simp [register, hfree, hcond, mkNewUser]
  · intro hinvalid
    have hcond : (validName (nameSetter name) && decide (6 ≤ pw.length)) = false := by
      simp [hinvalid]
    simp [register, hfree, hcond]

/-- Witness for claim C10 at a concrete registration: the submitted name
jOHN is stored as John, a different string. -/
theorem register_normalizes_and_validates_name_witness :
    register [] "jOHN" "j@x.com" "secret1" 0 "id1"
      = (.created (userDocJson (mkNewUser "jOHN" "j@x.com" "secret1" 0 "id1")),
         [] ++ [mkNewUser "jOHN" "j@x.com" "secret1" 0 "id1"]) :=
  (register_normalizes_and_validates_name.1 [] "jOHN" "j@x.com" "secret1" 0 "id1"
    rfl (by decide)).1 (by decide)

end AuthApi
